import Mathlib

/-!
Verification of the cherab-jet repository's own code (the KL11 camera,
voxel-grid and sensitivity-matrix loaders in
`cherab/jet/cameras/kl11/load_kl11.py`, and the plasma-profile section of
the demo script `demos/diagnostic/ks5/camera_76666.py`) against its
natural-language specification.

External-library objects (raysect cameras, file systems, the SAL client)
are modelled abstractly: file reads become lookups in an explicit store
(`String → Option …`), remotely fetched signals become plain lists, and a
Python exception becomes the `Except.error` branch.  Numeric array entries
are modelled with `ℚ` (the claims under study are parametric in the entry
values); the demo script's continuous fields use `ℝ`.
-/

namespace CherabJet

/-! ## Python slicing

`xs[::s]` keeps the first element and then every `s`-th element after it:
element `0`, element `s`, element `2*s`, … -/

/-- Model of the Python/numpy slice `xs[::s]` along one axis. -/
def sliceStride (s : Nat) : List α → List α
  | [] => []
  | x :: xs => x :: sliceStride s (xs.drop (s - 1))
termination_by xs => xs.length
decreasing_by simp; omega

/-- Model of the numpy 2-D slice `m[::s, ::s]`. -/
def stride2 (s : Nat) (m : List (List α)) : List (List α) :=
  (sliceStride s m).map (sliceStride s)

/-- Nested optional lookup in a list-of-lists: entry `(i, j)` if present. -/
def get2? (m : List (List α)) (i j : Nat) : Option α :=
  (m[i]?.getD [])[j]?

/-! ## `load_kl11.py`: camera loader -/

/-- Model of a raysect `PowerPipeline2D` object: the constructor arguments
used at `load_kl11.py:17` plus the `display_update_time` attribute set at
line 18. -/
structure PowerPipeline2D where
  display_unsaturated_fraction : ℚ
  name : String
  display_update_time : ℚ
deriving DecidableEq

/-- The default pipeline built by `load_kl11_camera` when `pipelines` is
falsy: `PowerPipeline2D(display_unsaturated_fraction=0.96, name="Unfiltered
Power (W)")` followed by `power_unfiltered.display_update_time = 15`. -/
def powerUnfiltered : PowerPipeline2D :=
  { display_unsaturated_fraction := 96 / 100
    name := "Unfiltered Power (W)"
    display_update_time := 15 }

/-- The triple returned by `load_calcam_calibration`:
`pixels_shape, pixel_origins, pixel_directions`.  The per-pixel origin and
direction arrays are 2-D arrays over an abstract entry type `V`. -/
structure CameraCalibration (V : Type) where
  pixels_shape : Nat × Nat
  pixel_origins : List (List V)
  pixel_directions : List (List V)

/-- Model of the raysect `VectorCamera` constructed by `load_kl11_camera`,
with the two attributes set after construction (`load_kl11.py:24-25`). -/
structure VectorCamera (V : Type) where
  pixel_origins : List (List V)
  pixel_directions : List (List V)
  pipelines : List PowerPipeline2D
  spectral_bins : Nat
  pixel_samples : Nat

/-- Python truthiness test `not pipelines` (`load_kl11.py:16`): true for
`None` and for an empty list. -/
def pipelinesFalsy (pipelines : Option (List PowerPipeline2D)) : Bool :=
  match pipelines with
  | none => true
  | some l => l.isEmpty

/-- Model of `load_kl11_camera` (`load_kl11.py:12-27`).  The calibration
file read is modelled by an `Option`: `none` is a failed
`load_calcam_calibration` call, which propagates as an uncaught error. -/
def load_kl11_camera (calibration : Option (CameraCalibration V))
    (pipelines : Option (List PowerPipeline2D)) (stride : Nat) :
    Except String (VectorCamera V) :=
  match calibration with
  | none => Except.error "load_calcam_calibration failed"
  | some camera_config =>
    let resolved :=
      if pipelinesFalsy pipelines then [powerUnfiltered] else pipelines.getD []
    Except.ok
      { pixel_origins := stride2 stride camera_config.pixel_origins
        pixel_directions := stride2 stride camera_config.pixel_directions
        pipelines := resolved
        spectral_bins := 15
        pixel_samples := 1 }

/-! ## `load_kl11.py`: voxel-grid loader -/

/-- Model of a raysect `Point2D`. -/
structure Point2D where
  x : ℚ
  y : ℚ
deriving DecidableEq

/-- One entry of the JSON grid description's `cells` list: each field holds
the coordinate list stored under the keys `p1` … `p4`. -/
structure VoxelCell where
  p1 : List ℚ
  p2 : List ℚ
  p3 : List ℚ
  p4 : List ℚ

/-- The parsed JSON grid description (`json.load` result). -/
structure GridDescription where
  cells : List VoxelCell

/-- Model of the inversion library's `ToroidalVoxelGrid`, keeping the
coordinate list it is constructed from. -/
structure ToroidalVoxelGrid where
  voxel_coordinates : List (Point2D × Point2D × Point2D × Point2D)
  name : Option String

/-- `Point2D(coords[0], coords[1])`: Python list indexing raises on a list
that is too short, modelled by the error branch. -/
def Point2D.ofPair (coords : List ℚ) : Except String Point2D :=
  match coords[0]?, coords[1]? with
  | some a, some b => Except.ok { x := a, y := b }
  | _, _ => Except.error "list index out of range"

/-- The body of the loop at `load_kl11.py:39-44`: one quadrilateral from
one cell's `p1` … `p4` fields. -/
def cellToQuad (voxel : VoxelCell) :
    Except String (Point2D × Point2D × Point2D × Point2D) := do
  let v1 ← Point2D.ofPair voxel.p1
  let v2 ← Point2D.ofPair voxel.p2
  let v3 ← Point2D.ofPair voxel.p3
  let v4 ← Point2D.ofPair voxel.p4
  return (v1, v2, v3, v4)

/-- Model of `load_kl11_voxel_grid` (`load_kl11.py:30-48`).  The JSON file
read is an `Option GridDescription`; `none` is a missing or unreadable
file, propagated as an uncaught error. -/
def load_kl11_voxel_grid (grid_file : Option GridDescription)
    (name : Option String) : Except String ToroidalVoxelGrid :=
  match grid_file with
  | none => Except.error "cannot open kl11_voxel_grid.json"
  | some grid_description => do
    let voxel_coordinates ← grid_description.cells.mapM cellToQuad
    return { voxel_coordinates := voxel_coordinates, name := name }

/-! ## `load_kl11.py`: sensitivity-matrix loader -/

/-- The hard-coded base directory of `load_kl11_sensitivity_matrix`. -/
def kl11BasePath : String := "/work/mcarr/tasks/kl11/data"

/-- `os.path.join` for the absolute-directory/file-name case used here. -/
def pathJoin (a b : String) : String := a ++ "/" ++ b

/-- The path read in iteration `i` of the `reflections` loop:
`os.path.join(base_path, 'kl11_rf_sensitivity_matrix_' + str(i) + '.npy')`
(the format call applied to the channel index). -/
def rfName (i : Nat) : String :=
  pathJoin kl11BasePath ("kl11_rf_sensitivity_matrix_" ++ Nat.repr i ++ ".npy")

/-- The path read in iteration `i` of the no-reflections loop. -/
def norfName (i : Nat) : String :=
  pathJoin kl11BasePath ("kl11_norf_sensitivity_matrix_" ++ Nat.repr i ++ ".npy")

/-- `dimension = int(np.ceil(1000 / stride))` (`load_kl11.py:54`), with the
float arithmetic modelled exactly over `ℚ`. -/
def kl11Dimension (stride : Nat) : Nat := ⌈(1000 : ℚ) / (stride : ℚ)⌉₊

/-- The assembly loop `for i in range(2655): sensitivity[i, :] = np.load(...)
[::stride, ::stride].flatten()`, over an explicit file store.  It returns
the list of paths passed to `np.load` (in read order) and either the
assembled rows or the first uncaught error.  The numpy slice assignment
into the preallocated row of length `dim * dim` follows broadcasting
rules: a source of matching length fills the row, a length-1 source
broadcasts its single value across the row, and any other length raises
an uncaught `ValueError` (modelled as `Except.error`).  A missing file
raises an uncaught `IOError` the same way. -/
def sensRowsAux (store : String → Option (List (List ℚ))) (stride dim : Nat)
    (fname : Nat → String) :
    List Nat → List String × Except String (List (List ℚ))
  | [] => ([], Except.ok [])
  | i :: rest =>
    let p := fname i
    match store p with
    | none => ([p], Except.error ("No such file or directory: " ++ p))
    | some arr =>
      let row := (stride2 stride arr).flatten
      if row.length = dim * dim then
        let next := sensRowsAux store stride dim fname rest
        (p :: next.1, next.2.map (fun rows => row :: rows))
      else if row.length = 1 then
        let next := sensRowsAux store stride dim fname rest
        (p :: next.1, next.2.map (fun rows =>
          List.replicate (dim * dim) (row.getD 0 0) :: rows))
      else
        ([p], Except.error ("could not broadcast input array from " ++ p))

/-- The pre-transpose sensitivity array of `load_kl11_sensitivity_matrix`:
the `(2655, dimension*dimension)` array filled row by row by one of the two
loops at `load_kl11.py:58-63` (they differ only in the file-name format
string). -/
def kl11SensitivityRows (store : String → Option (List (List ℚ)))
    (reflections : Bool) (stride : Nat) :
    List String × Except String (List (List ℚ)) :=
  if reflections then
    sensRowsAux store stride (kl11Dimension stride) rfName (List.range 2655)
  else
    sensRowsAux store stride (kl11Dimension stride) norfName (List.range 2655)

/-- `np.swapaxes(m, 0, 1)` for a 2-D array `m` whose static column count is
`cols`: column `j` of `m` becomes row `j` of the result. -/
def swapaxes01 (cols : Nat) (m : List (List ℚ)) : List (List ℚ) :=
  (List.range cols).map (fun j => m.map (fun row => row.getD j 0))

/-- Model of `load_kl11_sensitivity_matrix` (`load_kl11.py:51-65`): returns
the read log and either the transposed sensitivity matrix or the first
uncaught error. -/
def load_kl11_sensitivity_matrix (store : String → Option (List (List ℚ)))
    (reflections : Bool) (stride : Nat) :
    List String × Except String (List (List ℚ)) :=
  let pre := kl11SensitivityRows store reflections stride
  (pre.1,
   pre.2.map (swapaxes01 (kl11Dimension stride * kl11Dimension stride)))

/-- The file name used in iteration `i`, as a function of the
`reflections` flag (the two loops of `load_kl11_sensitivity_matrix` differ
only in this). -/
def sensName (reflections : Bool) : Nat → String :=
  if reflections then rfName else norfName

/-- A store holding, at every path the chosen loop reads, a serialized
1000 × 1000 array — the documented shape of the per-channel sensitivity
files. -/
def GoodStore (store : String → Option (List (List ℚ)))
    (fname : Nat → String) : Prop :=
  ∀ i < 2655, ∃ arr, store (fname i) = some arr ∧ arr.length = 1000 ∧
    ∀ r ∈ arr, r.length = 1000

/-- Total form of the loop body of `load_kl11_voxel_grid`: the
quadrilateral `(Point2D(p1[0], p1[1]), …, Point2D(p4[0], p4[1]))` of a
cell whose coordinate lists are long enough. -/
def quadOfCell (cell : VoxelCell) : Point2D × Point2D × Point2D × Point2D :=
  ({ x := cell.p1.getD 0 0, y := cell.p1.getD 1 0 },
   { x := cell.p2.getD 0 0, y := cell.p2.getD 1 0 },
   { x := cell.p3.getD 0 0, y := cell.p3.getD 1 0 },
   { x := cell.p4.getD 0 0, y := cell.p4.getD 1 0 })

/-! ## `camera_76666.py`: plasma-profile section

The four PRFL signals and the psi coordinate axis arrive from the SAL
server as 1-D numeric arrays (after `.squeeze()`); they are modelled as
lists of `ℚ`. -/

/-- `mask = psi_coord <= 1.0` (`camera_76666.py:75`): the elementwise
comparison of a numpy array with a scalar. -/
def psiMask (psi_coord : List ℚ) : List Bool :=
  psi_coord.map (fun v => decide (v ≤ 1))

/-- Numpy boolean indexing `xs[m]`: keep the elements at the positions
where the boolean array is true. -/
def boolIndex : List α → List Bool → List α
  | [], _ => []
  | _ :: _, [] => []
  | x :: xs, b :: bs => if b then x :: boolIndex xs bs else boolIndex xs bs

/-- The raw signals fetched at `camera_76666.py:74-94`: the psi coordinate
axis of the C6 signal and the data arrays of VT, TI, NE and C6. -/
structure ProfileSignals where
  psi_coord : List ℚ
  vt : List ℚ
  ti : List ℚ
  ne : List ℚ
  c6 : List ℚ

/-- The masking performed by the script: `psi_coord = psi_coord[mask]` and
`...data.squeeze()[mask]` for each of the four profile signals, all with
the one mask computed from the psi coordinate axis. -/
def maskedProfiles (sig : ProfileSignals) :
    List ℚ × List ℚ × List ℚ × List ℚ × List ℚ :=
  let m := psiMask sig.psi_coord
  (boolIndex sig.psi_coord m, boolIndex sig.vt m, boolIndex sig.ti m,
   boolIndex sig.ne m, boolIndex sig.c6 m)

/-- `density_d = lambda x, y, z: electron_density(x, y, z) - 6 *
density_c6(x, y, z)` (`camera_76666.py:97`), parametric in the two
interpolated 3-D fields.  Stated over any field so the definition stays
executable; the theorems instantiate `K := ℝ`. -/
def density_d {K : Type} [Field K] (electron_density density_c6 : K → K → K → K)
    (x y z : K) : K :=
  electron_density x y z - 6 * density_c6 x y z

/-- Model of a raysect `Vector3D` over a scalar type `K` (`K := ℝ` in the
theorems). -/
structure Vector3D (K : Type) where
  x : K
  y : K
  z : K

/-- Componentwise division of a vector by a scalar. -/
def Vector3D.sdiv {K : Type} [Div K] (v : Vector3D K) (s : K) : Vector3D K :=
  { x := v.x / s, y := v.y / s, z := v.z / s }

/-- Euclidean dot product. -/
def Vector3D.dot {K : Type} [Field K] (a b : Vector3D K) : K :=
  a.x * b.x + a.y * b.y + a.z * b.z

/-- Euclidean magnitude, with the square root passed explicitly
(`Real.sqrt` in the theorems). -/
def Vector3D.magWith {K : Type} [Field K] (sqrt : K → K) (v : Vector3D K) : K :=
  sqrt (v.x ^ 2 + v.y ^ 2 + v.z ^ 2)

/-- `flow_velocity = lambda x, y, z: Vector3D(y * f(x,y,z), -x * f(x,y,z),
0.) / np.sqrt(x*x + y*y)` (`camera_76666.py:81-82`), parametric in the
scalar toroidal-flow field `f` and in the square-root function (`np.sqrt`,
instantiated with `Real.sqrt` in the theorems). -/
def flow_velocity {K : Type} [Field K] (sqrt : K → K)
    (flow_velocity_tor : K → K → K → K) (x y z : K) : Vector3D K :=
  Vector3D.sdiv
    { x := y * flow_velocity_tor x y z
      y := -(x * flow_velocity_tor x y z)
      z := 0 }
    (sqrt (x * x + y * y))

/-! ## Lemmas about slicing -/

theorem sliceStride_nil (s : Nat) : sliceStride s ([] : List α) = [] := by
  simp [sliceStride]

theorem sliceStride_cons (s : Nat) (x : α) (xs : List α) :
    sliceStride s (x :: xs) = x :: sliceStride s (xs.drop (s - 1)) := by
  simp [sliceStride]

/-- Dividing in `ℕ`, `(m - (s-1) + s - 1) / s + 1 = (m + s) / s` for
`1 ≤ s`: the arithmetic step of the slice-length computation. -/
theorem slice_length_step (s m : Nat) (hs : 1 ≤ s) :
    (m - (s - 1) + s - 1) / s + 1 = (m + s) / s := by
  rw [Nat.add_div_right m hs]
  rcases Nat.le_total m (s - 1) with h | h
  · have h1 : m - (s - 1) = 0 := Nat.sub_eq_zero_of_le h
    have h2 : m / s = 0 := Nat.div_eq_of_lt (by omega)
    have h3 : (s - 1) / s = 0 := Nat.div_eq_of_lt (by omega)
    rw [h1, h2]
    simpa using h3
  · have h1 : m - (s - 1) + s - 1 = m := by omega
    rw [h1]

/-- `xs[::s]` has exactly `⌈len(xs) / s⌉ = (len(xs) + s - 1) / s`
elements, for every `s ≥ 1`. -/
theorem sliceStride_length (s : Nat) (hs : 1 ≤ s) (xs : List α) :
    (sliceStride s xs).length = (xs.length + s - 1) / s := by
  have aux : ∀ (n : Nat) (ys : List α), ys.length ≤ n →
      (sliceStride s ys).length = (ys.length + s - 1) / s := by
    intro n
    induction n with
    | zero =>
      intro ys hy
      have : ys = [] := List.eq_nil_of_length_eq_zero (Nat.le_zero.mp hy)
      subst this
      simp [sliceStride_nil, Nat.div_eq_of_lt (by omega : s - 1 < s)]
    | succ n ih =>
      intro ys hy
      cases ys with
      | nil => simp [sliceStride_nil, Nat.div_eq_of_lt (by omega : s - 1 < s)]
      | cons x t =>
        rw [sliceStride_cons]
        have hdrop : (t.drop (s - 1)).length = t.length - (s - 1) :=
          List.length_drop _ _
        have hle : (t.drop (s - 1)).length ≤ n := by
          simp only [hdrop] at *
          simp only [List.length_cons] at hy
          omega
        simp only [List.length_cons]
        rw [ih _ hle, hdrop]
        have harg : t.length + 1 + s - 1 = t.length + s := by omega
        rw [harg]
        exact slice_length_step s t.length hs
  exact aux xs.length xs le_rfl

/-- Element `i` of `xs[::s]` is element `i * s` of `xs`, for `s ≥ 1`
(on both sides `none` when out of range). -/
theorem sliceStride_getElem? (s : Nat) (hs : 1 ≤ s) (xs : List α) (i : Nat) :
    (sliceStride s xs)[i]? = xs[i * s]? := by
  induction i generalizing xs with
  | zero =>
    cases xs with
    | nil => simp [sliceStride_nil]
    | cons x t => simp [sliceStride_cons]
  | succ i ih =>
    cases xs with
    | nil => simp [sliceStride_nil]
    | cons x t =>
      rw [sliceStride_cons, List.getElem?_cons_succ, ih, List.getElem?_drop]
      have h1 : (i + 1) * s = (s - 1 + i * s) + 1 := by
        have h2 : (i + 1) * s = i * s + s := by ring
        rw [h2]
        generalize i * s = a
        omega
      rw [h1, List.getElem?_cons_succ]

/-- Every element of `xs[::s]` is an element of `xs`. -/
theorem sliceStride_mem (s : Nat) (hs : 1 ≤ s) (xs : List α) (a : α)
    (h : a ∈ sliceStride s xs) : a ∈ xs := by
  obtain ⟨i, hi⟩ := List.mem_iff_getElem?.mp h
  rw [sliceStride_getElem? s hs] at hi
  exact List.mem_iff_getElem?.mpr ⟨i * s, hi⟩

/-- The rational ceiling `⌈n / s⌉₊` agrees with the natural-number
ceiling division `(n + s - 1) / s`, for `s ≥ 1`. -/
theorem natCeilDiv_eq (n s : Nat) (hs : 1 ≤ s) :
    ⌈(n : ℚ) / (s : ℚ)⌉₊ = (n + s - 1) / s := by
  have hs0 : 0 < s := hs
  have hsq : (0 : ℚ) < (s : ℚ) := by exact_mod_cast hs0
  set d := (n + s - 1) / s with hd
  obtain ⟨r, hrlt, hmod⟩ : ∃ r, r < s ∧ s * d + r = n + s - 1 :=
    ⟨(n + s - 1) % s, Nat.mod_lt _ hs0, by rw [hd]; exact Nat.div_add_mod _ s⟩
  have hub : n ≤ s * d ∧ s * d ≤ n + s - 1 := by
    constructor
    · generalize s * d = A at hmod
      omega
    · generalize s * d = A at hmod
      omega
  apply le_antisymm
  · apply Nat.ceil_le.mpr
    rw [div_le_iff₀ hsq]
    have h1 : (n : ℚ) ≤ (s : ℚ) * (d : ℚ) := by exact_mod_cast hub.1
    linarith
  · rcases Nat.eq_zero_or_pos n with hn | hn
    · subst hn
      have : d = 0 := by
        rw [hd]
        exact Nat.div_eq_of_lt (by omega)
      simp [this]
    · have hd1 : 1 ≤ d := by
        rcases Nat.eq_zero_or_pos d with h0 | h0
        · exfalso
          rw [h0, Nat.mul_zero] at hub
          omega
        · exact h0
      have hstep : (d - 1) * s < n := by
        have hexp : (d - 1) * s = s * d - s := by
          rw [Nat.sub_mul, Nat.one_mul, Nat.mul_comm]
        rw [hexp]
        generalize s * d = A at hub
        omega
      have hlt : ((d - 1 : Nat) : ℚ) < (n : ℚ) / (s : ℚ) := by
        rw [lt_div_iff₀ hsq]
        exact_mod_cast hstep
      have := Nat.lt_ceil.mpr hlt
      omega

/-- The per-axis grid dimension computed at `load_kl11.py:54` is the exact
integer ceiling of `1000 / stride`. -/
theorem kl11Dimension_eq (stride : Nat) (hs : 1 ≤ stride) :
    kl11Dimension stride = (1000 + stride - 1) / stride :=
  natCeilDiv_eq 1000 stride hs

/-! ## Lemmas about 2-D striding and flattening -/

theorem stride2_length (s : Nat) (hs : 1 ≤ s) (m : List (List α)) :
    (stride2 s m).length = (m.length + s - 1) / s := by
  rw [stride2, List.length_map, sliceStride_length s hs]

theorem stride2_row_length (s : Nat) (hs : 1 ≤ s) (m : List (List α))
    (cols : Nat) (h : ∀ r ∈ m, r.length = cols) :
    ∀ r ∈ stride2 s m, r.length = (cols + s - 1) / s := by
  intro r hr
  rw [stride2] at hr
  obtain ⟨r₀, hr₀, rfl⟩ := List.mem_map.mp hr
  rw [sliceStride_length s hs, h r₀ (sliceStride_mem s hs m r₀ hr₀)]

theorem stride2_getElem? (s : Nat) (hs : 1 ≤ s) (m : List (List α)) (i : Nat) :
    (stride2 s m)[i]? = (m[i * s]?).map (sliceStride s) := by
  rw [stride2, List.getElem?_map, sliceStride_getElem? s hs]

/-- Entry `(i, j)` of `m[::s, ::s]` is entry `(i*s, j*s)` of `m`. -/
theorem get2?_stride2 (s : Nat) (hs : 1 ≤ s) (m : List (List α)) (i j : Nat) :
    get2? (stride2 s m) i j = get2? m (i * s) (j * s) := by
  rw [get2?, get2?, stride2_getElem? s hs]
  cases h : m[i * s]? with
  | none => simp
  | some row => simp [sliceStride_getElem? s hs]

/-- Flattening a list of lists that all have length `d` gives
`count * d` elements. -/
theorem flatten_length_const {α : Type} (d : Nat) (l : List (List α))
    (h : ∀ r ∈ l, r.length = d) : l.flatten.length = l.length * d := by
  induction l with
  | nil => simp
  | cons r t ih =>
    rw [List.flatten_cons, List.length_append, List.length_cons,
      h r (by simp), ih (fun x hx => h x (by simp [hx]))]
    ring

/-- Flattening the strided slice of a 1000 × 1000 array gives exactly
`dimension * dimension` entries, the preallocated row length of the
sensitivity matrix. -/
theorem strideFlatten_length (s : Nat) (hs : 1 ≤ s) (arr : List (List ℚ))
    (hlen : arr.length = 1000) (hrows : ∀ r ∈ arr, r.length = 1000) :
    ((stride2 s arr).flatten).length = kl11Dimension s * kl11Dimension s := by
  rw [flatten_length_const ((1000 + s - 1) / s) _
      (stride2_row_length s hs arr 1000 hrows),
    stride2_length s hs, hlen, kl11Dimension_eq s hs]

/-! ## Lemmas about `Except` and `mapM` -/

/-- If `f` succeeds with `g x` on every element, `mapM f` succeeds with the
pointwise map. -/
theorem mapM_ok_of_forall {α β : Type} (f : α → Except String β) (g : α → β)
    (l : List α) (h : ∀ x ∈ l, f x = Except.ok (g x)) :
    l.mapM f = Except.ok (l.map g) := by
  induction l with
  | nil => rfl
  | cons x t ih =>
    rw [List.mapM_cons, h x (by simp), ih (fun y hy => h y (by simp [hy]))]
    rfl

/-- If `f` fails on some element, `mapM f` fails. -/
theorem mapM_error_of_exists {α β : Type} (f : α → Except String β)
    (l : List α) (h : ∃ x ∈ l, ∃ e, f x = Except.error e) :
    ∃ e, l.mapM f = Except.error e := by
  induction l with
  | nil => simp at h
  | cons x t ih =>
    cases hx : f x with
    | error e => exact ⟨e, by rw [List.mapM_cons, hx]; rfl⟩
    | ok b =>
      have hrest : ∃ y ∈ t, ∃ e, f y = Except.error e := by
        obtain ⟨y, hy, e, he⟩ := h
        rcases List.mem_cons.mp hy with rfl | hy'
        · rw [hx] at he
          cases he
        · exact ⟨y, hy', e, he⟩
      obtain ⟨e, he⟩ := ih hrest
      refine ⟨e, ?_⟩
      rw [List.mapM_cons, hx, he]
      rfl

/-! ## Lemmas about the sensitivity-assembly loop -/

/-- If every file in `l` is present and its strided, flattened contents
fill one preallocated row, the loop returns all rows in order and the read
log lists exactly the file names of `l`, in order. -/
theorem sensRowsAux_ok (store : String → Option (List (List ℚ)))
    (stride dim : Nat) (fname : Nat → String) (l : List Nat)
    (h : ∀ i ∈ l, ∃ arr, store (fname i) = some arr ∧
      ((stride2 stride arr).flatten).length = dim * dim) :
    (sensRowsAux store stride dim fname l).1 = l.map fname ∧
    (sensRowsAux store stride dim fname l).2 = Except.ok
      (l.map (fun i => (stride2 stride ((store (fname i)).getD [])).flatten)) := by
  induction l with
  | nil => exact ⟨rfl, rfl⟩
  | cons i rest ih =>
    obtain ⟨arr, harr, hlen⟩ := h i (by simp)
    obtain ⟨ih1, ih2⟩ := ih (fun j hj => h j (by simp [hj]))
    constructor
    · simp [sensRowsAux, harr, hlen, ih1]
    · simp [sensRowsAux, harr, hlen, ih2, Except.map]

/-- If some file in `l` is missing, or present with contents whose strided
flattening does not fill a row, the loop fails. -/
theorem sensRowsAux_error (store : String → Option (List (List ℚ)))
    (stride dim : Nat) (fname : Nat → String) (l : List Nat)
    (h : ∃ i ∈ l, store (fname i) = none ∨ ∃ arr, store (fname i) = some arr ∧
      ((stride2 stride arr).flatten).length ≠ dim * dim ∧
      ((stride2 stride arr).flatten).length ≠ 1) :
    ∃ e, (sensRowsAux store stride dim fname l).2 = Except.error e := by
  induction l with
  | nil => simp at h
  | cons i rest ih =>
    cases hstore : store (fname i) with
    | none =>
      exact ⟨"No such file or directory: " ++ fname i, by
        simp [sensRowsAux, hstore]⟩
    | some arr =>
      have hrest : (((stride2 stride arr).flatten).length = dim * dim ∨
          ((stride2 stride arr).flatten).length = 1) →
          ∃ j ∈ rest, store (fname j) = none ∨
            ∃ arr, store (fname j) = some arr ∧
              ((stride2 stride arr).flatten).length ≠ dim * dim ∧
              ((stride2 stride arr).flatten).length ≠ 1 := by
        intro hok
        obtain ⟨j, hj, hbad⟩ := h
        rcases List.mem_cons.mp hj with rfl | hj'
        · exfalso
          rcases hbad with hnone | ⟨arr', harr', hne1, hne2⟩
          · rw [hstore] at hnone
            cases hnone
          · rw [hstore] at harr'
            cases harr'
            rcases hok with hok | hok
            · exact hne1 hok
            · exact hne2 hok
        · exact ⟨j, hj', hbad⟩
      by_cases hlen : ((stride2 stride arr).flatten).length = dim * dim
      · obtain ⟨e, he⟩ := ih (hrest (Or.inl hlen))
        refine ⟨e, ?_⟩
        simp only [sensRowsAux, hstore]
        rw [if_pos hlen]
        simp only [he, Except.map]
      · by_cases hone : ((stride2 stride arr).flatten).length = 1
        · obtain ⟨e, he⟩ := ih (hrest (Or.inr hone))
          refine ⟨e, ?_⟩
          simp only [sensRowsAux, hstore]
          rw [if_neg hlen, if_pos hone]
          simp only [he, Except.map]
        · refine ⟨"could not broadcast input array from " ++ fname i, ?_⟩
          simp only [sensRowsAux, hstore]
          rw [if_neg hlen, if_neg hone]

/-- Fidelity of the broadcast branch: a file holding a single 1 × 1 array
is assigned without error, its one value broadcast across the whole
preallocated row, exactly as the numpy slice assignment behaves. -/
theorem sensRowsAux_broadcast (store : String → Option (List (List ℚ)))
    (stride dim : Nat) (fname : Nat → String) (i : Nat) (q : ℚ)
    (hstore : store (fname i) = some [[q]]) (hdim : dim * dim ≠ 1) :
    (sensRowsAux store stride dim fname [i]).2 =
      Except.ok [List.replicate (dim * dim) q] := by
  have hs2 : stride2 stride [[q]] = [[q]] := by
    rw [stride2, sliceStride_cons, List.drop_nil, sliceStride_nil,
      List.map_cons, List.map_nil, sliceStride_cons, List.drop_nil,
      sliceStride_nil]
  have hrow : (stride2 stride [[q]]).flatten = [q] := by
    rw [hs2]
    rfl
  simp only [sensRowsAux, hstore, hrow]
  rw [if_neg (fun hcon => hdim hcon.symm), if_pos (by rfl : [q].length = 1)]
  rfl

/-- The two branches of `kl11SensitivityRows` as one equation over
`sensName`. -/
theorem kl11SensitivityRows_eq (store : String → Option (List (List ℚ)))
    (reflections : Bool) (stride : Nat) :
    kl11SensitivityRows store reflections stride =
      sensRowsAux store stride (kl11Dimension stride) (sensName reflections)
        (List.range 2655) := by
  cases reflections <;> simp only [kl11SensitivityRows, sensName] <;>
    simp only [Bool.false_eq_true, if_false, if_true]

/-! ## Claim C2 -/

/-- **C2.** For every `stride ≥ 1`, striding a 1000-element axis with
`[::stride]` yields exactly `⌈1000/stride⌉` elements;
`int(np.ceil(1000 / stride))` equals the exact integer ceiling of
`1000 / stride`; hence the strided-and-flattened contents of a 1000 × 1000
per-channel array have exactly `dimension * dimension` entries, the
preallocated row length. -/
theorem kl11_stride_dimension (stride : Nat) (hs : 1 ≤ stride) :
    kl11Dimension stride = (1000 + stride - 1) / stride ∧
    (∀ xs : List ℚ, xs.length = 1000 →
      (sliceStride stride xs).length = kl11Dimension stride) ∧
    (∀ arr : List (List ℚ), arr.length = 1000 → (∀ r ∈ arr, r.length = 1000) →
      ((stride2 stride arr).flatten).length =
        kl11Dimension stride * kl11Dimension stride) := by
  refine ⟨kl11Dimension_eq stride hs, ?_, ?_⟩
  · intro xs hxs
    rw [sliceStride_length stride hs, hxs, kl11Dimension_eq stride hs]
  · intro arr h1 h2
    exact strideFlatten_length stride hs arr h1 h2

/-- Witness for C2 at `stride = 3` and concrete 1000-element data. -/
theorem kl11_stride_dimension_witness :
    1 ≤ 3 ∧
    kl11Dimension 3 = (1000 + 3 - 1) / 3 ∧
    (sliceStride 3 (List.replicate 1000 (0 : ℚ))).length = kl11Dimension 3 ∧
    ((stride2 3 (List.replicate 1000
        (List.replicate 1000 (0 : ℚ)))).flatten).length =
      kl11Dimension 3 * kl11Dimension 3 := by
  refine ⟨by norm_num, (kl11_stride_dimension 3 (by norm_num)).1,
    (kl11_stride_dimension 3 (by norm_num)).2.1 _ (by rw [List.length_replicate]),
    (kl11_stride_dimension 3 (by norm_num)).2.2 _ (by rw [List.length_replicate]) ?_⟩
  intro r hr
  rw [List.eq_of_mem_replicate hr, List.length_replicate]

/-! ## Claim C1 -/

/-- **C1.** For every `stride ≥ 1`, when each per-channel file holds a
1000 × 1000 array, the loop assembles a `(2655, dimension * dimension)`
array of per-channel rows and `load_kl11_sensitivity_matrix` returns its
transpose, of shape `(pixels, channels) = (⌈1000/stride⌉², 2655)`. -/
theorem kl11_sensitivity_matrix_shape (store : String → Option (List (List ℚ)))
    (reflections : Bool) (stride : Nat) (hs : 1 ≤ stride)
    (hstore : GoodStore store (sensName reflections)) :
    ∃ rows,
      (kl11SensitivityRows store reflections stride).2 = Except.ok rows ∧
      rows.length = 2655 ∧
      (∀ r ∈ rows, r.length = kl11Dimension stride * kl11Dimension stride) ∧
      (load_kl11_sensitivity_matrix store reflections stride).2 = Except.ok
        (swapaxes01 (kl11Dimension stride * kl11Dimension stride) rows) ∧
      (swapaxes01 (kl11Dimension stride * kl11Dimension stride) rows).length =
        kl11Dimension stride * kl11Dimension stride ∧
      ∀ col ∈ swapaxes01 (kl11Dimension stride * kl11Dimension stride) rows,
        col.length = 2655 := by
  have hgood : ∀ i ∈ List.range 2655, ∃ arr,
      store (sensName reflections i) = some arr ∧
      ((stride2 stride arr).flatten).length =
        kl11Dimension stride * kl11Dimension stride := by
    intro i hi
    obtain ⟨arr, harr, hl, hr⟩ := hstore i (List.mem_range.mp hi)
    exact ⟨arr, harr, strideFlatten_length stride hs arr hl hr⟩
  obtain ⟨hlog, hres⟩ := sensRowsAux_ok store stride (kl11Dimension stride)
    (sensName reflections) (List.range 2655) hgood
  refine ⟨_, by rw [kl11SensitivityRows_eq]; exact hres, by simp, ?_, ?_, ?_, ?_⟩
  · intro r hr
    obtain ⟨i, hi, rfl⟩ := List.mem_map.mp hr
    obtain ⟨arr, harr, hlen⟩ := hgood i hi
    rw [harr]
    simpa using hlen
  · simp only [load_kl11_sensitivity_matrix]
    rw [kl11SensitivityRows_eq, hres]
    rfl
  · simp [swapaxes01]
  · intro col hcol
    rw [swapaxes01] at hcol
    obtain ⟨j, hj, rfl⟩ := List.mem_map.mp hcol
    simp

/-- Witness for C1: a store holding a 1000 × 1000 zero array at every
path, `reflections = true`, `stride = 250`. -/
theorem kl11_sensitivity_matrix_shape_witness :
    1 ≤ 250 ∧
    GoodStore (fun _ => some (List.replicate 1000 (List.replicate 1000 (0 : ℚ))))
      (sensName true) ∧
    ∃ rows,
      (kl11SensitivityRows
        (fun _ => some (List.replicate 1000 (List.replicate 1000 (0 : ℚ))))
        true 250).2 = Except.ok rows ∧
      rows.length = 2655 ∧
      (∀ r ∈ rows, r.length = kl11Dimension 250 * kl11Dimension 250) ∧
      (load_kl11_sensitivity_matrix
        (fun _ => some (List.replicate 1000 (List.replicate 1000 (0 : ℚ))))
        true 250).2 = Except.ok
        (swapaxes01 (kl11Dimension 250 * kl11Dimension 250) rows) ∧
      (swapaxes01 (kl11Dimension 250 * kl11Dimension 250) rows).length =
        kl11Dimension 250 * kl11Dimension 250 ∧
      ∀ col ∈ swapaxes01 (kl11Dimension 250 * kl11Dimension 250) rows,
        col.length = 2655 := by
  have hgs : GoodStore
      (fun _ => some (List.replicate 1000 (List.replicate 1000 (0 : ℚ))))
      (sensName true) := by
    intro i _
    refine ⟨List.replicate 1000 (List.replicate 1000 (0 : ℚ)), rfl,
      by rw [List.length_replicate], ?_⟩
    intro r hr
    rw [List.eq_of_mem_replicate hr, List.length_replicate]
  exact ⟨by norm_num, hgs,
    kl11_sensitivity_matrix_shape _ true 250 (by norm_num) hgs⟩

/-! ## Claim C4 -/

/-- **C4.** For every channel `i < 2655`, row `i` of the pre-transpose
sensitivity array is the contents of the serialized file for channel `i`,
strided by `[::stride, ::stride]` and flattened row-major; the path read
is `kl11_rf_sensitivity_matrix_{i}.npy` under the hard-coded base
directory when `reflections` is true and `kl11_norf_sensitivity_matrix_{i}.npy`
when false; and exactly 2655 files are read, in ascending index order. -/
theorem kl11_sensitivity_rows_content (store : String → Option (List (List ℚ)))
    (reflections : Bool) (stride : Nat) (hs : 1 ≤ stride)
    (hstore : GoodStore store (sensName reflections)) :
    ∃ rows,
      (kl11SensitivityRows store reflections stride).2 = Except.ok rows ∧
      (∀ i < 2655, rows[i]? = some
        ((stride2 stride ((store (sensName reflections i)).getD [])).flatten)) ∧
      (load_kl11_sensitivity_matrix store reflections stride).1 =
        (List.range 2655).map (sensName reflections) ∧
      ((load_kl11_sensitivity_matrix store reflections stride).1).length = 2655 ∧
      (∀ i, sensName true i =
        "/work/mcarr/tasks/kl11/data/" ++
          ("kl11_rf_sensitivity_matrix_" ++ Nat.repr i ++ ".npy")) ∧
      (∀ i, sensName false i =
        "/work/mcarr/tasks/kl11/data/" ++
          ("kl11_norf_sensitivity_matrix_" ++ Nat.repr i ++ ".npy")) := by
  have hgood : ∀ i ∈ List.range 2655, ∃ arr,
      store (sensName reflections i) = some arr ∧
      ((stride2 stride arr).flatten).length =
        kl11Dimension stride * kl11Dimension stride := by
    intro i hi
    obtain ⟨arr, harr, hl, hr⟩ := hstore i (List.mem_range.mp hi)
    exact ⟨arr, harr, strideFlatten_length stride hs arr hl hr⟩
  obtain ⟨hlog, hres⟩ := sensRowsAux_ok store stride (kl11Dimension stride)
    (sensName reflections) (List.range 2655) hgood
  have hfold : kl11BasePath ++ "/" = "/work/mcarr/tasks/kl11/data/" := by decide
  refine ⟨_, by rw [kl11SensitivityRows_eq]; exact hres, ?_, ?_, ?_, ?_, ?_⟩
  · intro i hi
    rw [List.getElem?_map, List.getElem?_range hi]
    rfl
  · simp only [load_kl11_sensitivity_matrix]
    rw [kl11SensitivityRows_eq]
    exact hlog
  · simp only [load_kl11_sensitivity_matrix]
    rw [kl11SensitivityRows_eq, hlog]
    simp
  · intro i
    show pathJoin kl11BasePath _ = _
    rw [pathJoin, hfold]
  · intro i
    show pathJoin kl11BasePath _ = _
    rw [pathJoin, hfold]

/-- Witness for C4: the all-zero store, `reflections = false`,
`stride = 500`. -/
theorem kl11_sensitivity_rows_content_witness :
    1 ≤ 500 ∧
    GoodStore (fun _ => some (List.replicate 1000 (List.replicate 1000 (0 : ℚ))))
      (sensName false) ∧
    ∃ rows,
      (kl11SensitivityRows
        (fun _ => some (List.replicate 1000 (List.replicate 1000 (0 : ℚ))))
        false 500).2 = Except.ok rows ∧
      (∀ i < 2655, rows[i]? = some
        ((stride2 500 (((fun _ =>
            some (List.replicate 1000 (List.replicate 1000 (0 : ℚ))))
            (sensName false i)).getD [])).flatten)) ∧
      (load_kl11_sensitivity_matrix
        (fun _ => some (List.replicate 1000 (List.replicate 1000 (0 : ℚ))))
        false 500).1 = (List.range 2655).map (sensName false) ∧
      ((load_kl11_sensitivity_matrix
        (fun _ => some (List.replicate 1000 (List.replicate 1000 (0 : ℚ))))
        false 500).1).length = 2655 ∧
      (∀ i, sensName true i =
        "/work/mcarr/tasks/kl11/data/" ++
          ("kl11_rf_sensitivity_matrix_" ++ Nat.repr i ++ ".npy")) ∧
      (∀ i, sensName false i =
        "/work/mcarr/tasks/kl11/data/" ++
          ("kl11_norf_sensitivity_matrix_" ++ Nat.repr i ++ ".npy")) := by
  have hgs : GoodStore
      (fun _ => some (List.replicate 1000 (List.replicate 1000 (0 : ℚ))))
      (sensName false) := by
    intro i _
    refine ⟨List.replicate 1000 (List.replicate 1000 (0 : ℚ)), rfl,
      by rw [List.length_replicate], ?_⟩
    intro r hr
    rw [List.eq_of_mem_replicate hr, List.length_replicate]
  exact ⟨by norm_num, hgs,
    kl11_sensitivity_rows_content _ false 500 (by norm_num) hgs⟩

/-! ## Lemmas about the voxel-grid loader -/

theorem Point2D.ofPair_ok (coords : List ℚ) (h : 2 ≤ coords.length) :
    Point2D.ofPair coords =
      Except.ok { x := coords.getD 0 0, y := coords.getD 1 0 } := by
  match coords, h with
  | a :: b :: t, _ => simp [Point2D.ofPair, List.getD]

theorem Point2D.ofPair_short (coords : List ℚ) (h : coords.length < 2) :
    Point2D.ofPair coords = Except.error "list index out of range" := by
  match coords, h with
  | [], _ => rfl
  | [a], _ => rfl

theorem cellToQuad_ok (cell : VoxelCell) (h1 : 2 ≤ cell.p1.length)
    (h2 : 2 ≤ cell.p2.length) (h3 : 2 ≤ cell.p3.length)
    (h4 : 2 ≤ cell.p4.length) :
    cellToQuad cell = Except.ok (quadOfCell cell) := by
  rw [cellToQuad, Point2D.ofPair_ok _ h1, Point2D.ofPair_ok _ h2,
    Point2D.ofPair_ok _ h3, Point2D.ofPair_ok _ h4]
  rfl

theorem cellToQuad_error (cell : VoxelCell)
    (h : cell.p1.length < 2 ∨ cell.p2.length < 2 ∨ cell.p3.length < 2 ∨
      cell.p4.length < 2) :
    ∃ e, cellToQuad cell = Except.error e := by
  rcases h with h | h | h | h
  · exact ⟨_, by rw [cellToQuad, Point2D.ofPair_short _ h]; rfl⟩
  · rcases Nat.lt_or_ge cell.p1.length 2 with h1 | h1
    · exact ⟨_, by rw [cellToQuad, Point2D.ofPair_short _ h1]; rfl⟩
    · exact ⟨_, by
        rw [cellToQuad, Point2D.ofPair_ok _ h1, Point2D.ofPair_short _ h]
        rfl⟩
  · rcases Nat.lt_or_ge cell.p1.length 2 with h1 | h1
    · exact ⟨_, by rw [cellToQuad, Point2D.ofPair_short _ h1]; rfl⟩
    rcases Nat.lt_or_ge cell.p2.length 2 with h2 | h2
    · exact ⟨_, by
        rw [cellToQuad, Point2D.ofPair_ok _ h1, Point2D.ofPair_short _ h2]
        rfl⟩
    · exact ⟨_, by
        rw [cellToQuad, Point2D.ofPair_ok _ h1, Point2D.ofPair_ok _ h2,
          Point2D.ofPair_short _ h]
        rfl⟩
  · rcases Nat.lt_or_ge cell.p1.length 2 with h1 | h1
    · exact ⟨_, by rw [cellToQuad, Point2D.ofPair_short _ h1]; rfl⟩
    rcases Nat.lt_or_ge cell.p2.length 2 with h2 | h2
    · exact ⟨_, by
        rw [cellToQuad, Point2D.ofPair_ok _ h1, Point2D.ofPair_short _ h2]
        rfl⟩
    rcases Nat.lt_or_ge cell.p3.length 2 with h3 | h3
    · exact ⟨_, by
        rw [cellToQuad, Point2D.ofPair_ok _ h1, Point2D.ofPair_ok _ h2,
          Point2D.ofPair_short _ h3]
        rfl⟩
    · exact ⟨_, by
        rw [cellToQuad, Point2D.ofPair_ok _ h1, Point2D.ofPair_ok _ h2,
          Point2D.ofPair_ok _ h3, Point2D.ofPair_short _ h]
        rfl⟩

/-! ## Claim C5 -/

/-- **C5.** `load_kl11_voxel_grid` turns every entry of the `cells` list,
in file order, into exactly one quadrilateral of the four 2-D points read
from its fields `p1` … `p4` (each as `(x, y)` from positions 0 and 1), and
the grid object is built from the resulting list: as many voxels as cells,
in the same order. -/
theorem kl11_voxel_grid_spec (gd : GridDescription) (name : Option String)
    (h : ∀ cell ∈ gd.cells, 2 ≤ cell.p1.length ∧ 2 ≤ cell.p2.length ∧
      2 ≤ cell.p3.length ∧ 2 ≤ cell.p4.length) :
    ∃ grid, load_kl11_voxel_grid (some gd) name = Except.ok grid ∧
      grid.voxel_coordinates = gd.cells.map quadOfCell ∧
      grid.voxel_coordinates.length = gd.cells.length ∧
      grid.name = name ∧
      ∀ i : Nat, grid.voxel_coordinates[i]? = (gd.cells[i]?).map quadOfCell := by
  have hmap : gd.cells.mapM cellToQuad = Except.ok (gd.cells.map quadOfCell) :=
    mapM_ok_of_forall _ _ _ (fun c hc => cellToQuad_ok c (h c hc).1
      (h c hc).2.1 (h c hc).2.2.1 (h c hc).2.2.2)
  refine ⟨{ voxel_coordinates := gd.cells.map quadOfCell, name := name },
    ?_, rfl, by simp, rfl, ?_⟩
  · simp only [load_kl11_voxel_grid]
    rw [hmap]
    rfl
  · intro i
    rw [List.getElem?_map]

/-- Witness for C5: a two-cell grid description with concrete
coordinates. -/
theorem kl11_voxel_grid_spec_witness :
    (∀ cell ∈ (GridDescription.mk
        [VoxelCell.mk [1, 2] [3, 4] [5, 6] [7, 8],
         VoxelCell.mk [9, 10] [11, 12] [13, 14] [15, 16]]).cells,
      2 ≤ cell.p1.length ∧ 2 ≤ cell.p2.length ∧ 2 ≤ cell.p3.length ∧
        2 ≤ cell.p4.length) ∧
    ∃ grid, load_kl11_voxel_grid (some (GridDescription.mk
        [VoxelCell.mk [1, 2] [3, 4] [5, 6] [7, 8],
         VoxelCell.mk [9, 10] [11, 12] [13, 14] [15, 16]])) (some "kl11") =
      Except.ok grid ∧
      grid.voxel_coordinates = (GridDescription.mk
        [VoxelCell.mk [1, 2] [3, 4] [5, 6] [7, 8],
         VoxelCell.mk [9, 10] [11, 12] [13, 14] [15, 16]]).cells.map
           quadOfCell ∧
      grid.voxel_coordinates.length = (GridDescription.mk
        [VoxelCell.mk [1, 2] [3, 4] [5, 6] [7, 8],
         VoxelCell.mk [9, 10] [11, 12] [13, 14] [15, 16]]).cells.length ∧
      grid.name = some "kl11" ∧
      ∀ i : Nat, grid.voxel_coordinates[i]? = ((GridDescription.mk
        [VoxelCell.mk [1, 2] [3, 4] [5, 6] [7, 8],
         VoxelCell.mk [9, 10] [11, 12] [13, 14] [15, 16]]).cells[i]?).map
           quadOfCell := by
  have hcells : ∀ cell ∈ (GridDescription.mk
      [VoxelCell.mk [1, 2] [3, 4] [5, 6] [7, 8],
       VoxelCell.mk [9, 10] [11, 12] [13, 14] [15, 16]]).cells,
      2 ≤ cell.p1.length ∧ 2 ≤ cell.p2.length ∧ 2 ≤ cell.p3.length ∧
        2 ≤ cell.p4.length := by
    intro cell hc
    rcases List.mem_cons.mp hc with rfl | hc'
    · exact ⟨by simp, by simp, by simp, by simp⟩
    rcases List.mem_cons.mp hc' with rfl | hc''
    · exact ⟨by simp, by simp, by simp, by simp⟩
    · cases hc''
  exact ⟨hcells, kl11_voxel_grid_spec _ (some "kl11") hcells⟩

/-! ## Claim C6 -/

/-- **C6.** No loader catches exceptions, retries, or validates inputs:
a missing calibration file, a missing voxel-grid JSON file, a malformed
cell, a missing sensitivity file, or a strided flattened array whose
length can neither fill a preallocated sensitivity row nor broadcast into
it (numpy accepts the matching length and length 1) all propagate as the
`Except.error` branch, with no recovery and no result. -/
theorem kl11_loaders_propagate_errors :
    (∀ (pipelines : Option (List PowerPipeline2D)) (stride : Nat),
      ∃ e, load_kl11_camera (V := ℚ) none pipelines stride = Except.error e) ∧
    (∀ name, ∃ e, load_kl11_voxel_grid none name = Except.error e) ∧
    (∀ (gd : GridDescription) (name : Option String),
      (∃ cell ∈ gd.cells, cell.p1.length < 2 ∨ cell.p2.length < 2 ∨
        cell.p3.length < 2 ∨ cell.p4.length < 2) →
      ∃ e, load_kl11_voxel_grid (some gd) name = Except.error e) ∧
    (∀ (store : String → Option (List (List ℚ))) (reflections : Bool)
      (stride : Nat),
      (∃ i < 2655, store (sensName reflections i) = none ∨
        ∃ arr, store (sensName reflections i) = some arr ∧
          ((stride2 stride arr).flatten).length ≠
            kl11Dimension stride * kl11Dimension stride ∧
          ((stride2 stride arr).flatten).length ≠ 1) →
      ∃ e, (load_kl11_sensitivity_matrix store reflections stride).2 =
        Except.error e) := by
  refine ⟨fun _ _ => ⟨_, rfl⟩, fun _ => ⟨_, rfl⟩, ?_, ?_⟩
  · intro gd name hbad
    obtain ⟨cell, hc, hshort⟩ := hbad
    obtain ⟨e0, he0⟩ := cellToQuad_error cell hshort
    obtain ⟨e, he⟩ := mapM_error_of_exists cellToQuad gd.cells
      ⟨cell, hc, e0, he0⟩
    refine ⟨e, ?_⟩
    simp only [load_kl11_voxel_grid]
    rw [he]
    rfl
  · intro store reflections stride hbad
    obtain ⟨i, hi, hcase⟩ := hbad
    obtain ⟨e, he⟩ := sensRowsAux_error store stride (kl11Dimension stride)
      (sensName reflections) (List.range 2655)
      ⟨i, List.mem_range.mpr hi, hcase⟩
    refine ⟨e, ?_⟩
    simp only [load_kl11_sensitivity_matrix]
    rw [kl11SensitivityRows_eq, he]
    rfl

/-- Witness for C6: an empty file system and a grid description whose one
cell has empty coordinate lists. -/
theorem kl11_loaders_propagate_errors_witness :
    (∃ cell ∈ (GridDescription.mk [VoxelCell.mk [] [] [] []]).cells,
      cell.p1.length < 2 ∨ cell.p2.length < 2 ∨ cell.p3.length < 2 ∨
        cell.p4.length < 2) ∧
    (∃ i < 2655,
      (fun _ => (none : Option (List (List ℚ)))) (sensName true i) = none ∨
      ∃ arr, (fun _ => (none : Option (List (List ℚ))))
          (sensName true i) = some arr ∧
        ((stride2 1 arr).flatten).length ≠
          kl11Dimension 1 * kl11Dimension 1 ∧
        ((stride2 1 arr).flatten).length ≠ 1) ∧
    (∃ e, load_kl11_camera (V := ℚ) none none 1 = Except.error e) ∧
    (∃ e, load_kl11_voxel_grid none none = Except.error e) ∧
    (∃ e, load_kl11_voxel_grid
      (some (GridDescription.mk [VoxelCell.mk [] [] [] []])) none =
        Except.error e) ∧
    (∃ e, (load_kl11_sensitivity_matrix (fun _ => none) true 1).2 =
      Except.error e) := by
  refine ⟨⟨VoxelCell.mk [] [] [] [], by simp, Or.inl (by simp)⟩,
    ⟨0, by norm_num, Or.inl rfl⟩,
    kl11_loaders_propagate_errors.1 none 1,
    kl11_loaders_propagate_errors.2.1 none,
    kl11_loaders_propagate_errors.2.2.1 _ none
      ⟨VoxelCell.mk [] [] [] [], by simp, Or.inl (by simp)⟩,
    kl11_loaders_propagate_errors.2.2.2 _ true 1
      ⟨0, by norm_num, Or.inl rfl⟩⟩

/-! ## Claim C7 -/

/-- **C7.** For every `stride ≥ 1`, `load_kl11_camera` builds the camera
from the calibration's per-pixel origin and direction arrays strided by
`[::stride, ::stride]`: each camera axis has `⌈n/stride⌉` pixels where `n`
is the corresponding calibration axis length, and entry `(i, j)` of each
camera array is entry `(i*stride, j*stride)` of the calibration array —
no reshaping or reordering beyond striding. -/
theorem kl11_camera_striding (c : CameraCalibration ℚ)
    (pipelines : Option (List PowerPipeline2D)) (stride : Nat)
    (hs : 1 ≤ stride) (cols1 cols2 : Nat)
    (ho : ∀ r ∈ c.pixel_origins, r.length = cols1)
    (hd : ∀ r ∈ c.pixel_directions, r.length = cols2) :
    ∃ cam, load_kl11_camera (some c) pipelines stride = Except.ok cam ∧
      cam.pixel_origins.length =
        (c.pixel_origins.length + stride - 1) / stride ∧
      cam.pixel_directions.length =
        (c.pixel_directions.length + stride - 1) / stride ∧
      (∀ r ∈ cam.pixel_origins, r.length = (cols1 + stride - 1) / stride) ∧
      (∀ r ∈ cam.pixel_directions, r.length = (cols2 + stride - 1) / stride) ∧
      (∀ i j : Nat, get2? cam.pixel_origins i j =
        get2? c.pixel_origins (i * stride) (j * stride)) ∧
      (∀ i j : Nat, get2? cam.pixel_directions i j =
        get2? c.pixel_directions (i * stride) (j * stride)) := by
  refine ⟨_, rfl, ?_, ?_, ?_, ?_, ?_, ?_⟩
  · exact stride2_length stride hs c.pixel_origins
  · exact stride2_length stride hs c.pixel_directions
  · exact stride2_row_length stride hs c.pixel_origins cols1 ho
  · exact stride2_row_length stride hs c.pixel_directions cols2 hd
  · exact fun i j => get2?_stride2 stride hs c.pixel_origins i j
  · exact fun i j => get2?_stride2 stride hs c.pixel_directions i j

/-- Witness for C7 at `stride = 2` on a concrete 2 × 2 calibration. -/
theorem kl11_camera_striding_witness :
    1 ≤ 2 ∧
    (∀ r ∈ (CameraCalibration.mk (2, 2) [[(1 : ℚ), 2], [3, 4]]
        [[(5 : ℚ), 6], [7, 8]]).pixel_origins, r.length = 2) ∧
    (∀ r ∈ (CameraCalibration.mk (2, 2) [[(1 : ℚ), 2], [3, 4]]
        [[(5 : ℚ), 6], [7, 8]]).pixel_directions, r.length = 2) ∧
    ∃ cam, load_kl11_camera
        (some (CameraCalibration.mk (2, 2) [[(1 : ℚ), 2], [3, 4]]
          [[(5 : ℚ), 6], [7, 8]])) none 2 = Except.ok cam ∧
      cam.pixel_origins.length = (2 + 2 - 1) / 2 ∧
      cam.pixel_directions.length = (2 + 2 - 1) / 2 ∧
      (∀ r ∈ cam.pixel_origins, r.length = (2 + 2 - 1) / 2) ∧
      (∀ r ∈ cam.pixel_directions, r.length = (2 + 2 - 1) / 2) ∧
      (∀ i j : Nat, get2? cam.pixel_origins i j =
        get2? [[(1 : ℚ), 2], [3, 4]] (i * 2) (j * 2)) ∧
      (∀ i j : Nat, get2? cam.pixel_directions i j =
        get2? [[(5 : ℚ), 6], [7, 8]] (i * 2) (j * 2)) := by
  exact ⟨by norm_num, by decide, by decide,
    kl11_camera_striding _ none 2 (by norm_num) 2 2 (by decide) (by decide)⟩

/-! ## Claim C8 -/

/-- **C8.** At the public interface of `load_kl11_camera`: whenever the
`pipelines` argument is falsy (`None`, the default, or an empty list) the
camera gets exactly one default pipeline, an unfiltered 2-D power pipeline
with `display_unsaturated_fraction = 0.96` and `display_update_time = 15`;
a non-empty supplied list is passed to the camera unchanged. -/
theorem kl11_camera_default_pipeline (c : CameraCalibration ℚ)
    (stride : Nat) :
    pipelinesFalsy none = true ∧
    pipelinesFalsy (some []) = true ∧
    (∀ pipelines : Option (List PowerPipeline2D),
      pipelinesFalsy pipelines = true →
      ∃ cam, load_kl11_camera (some c) pipelines stride = Except.ok cam ∧
        cam.pipelines = [powerUnfiltered] ∧
        powerUnfiltered.display_unsaturated_fraction = 96 / 100 ∧
        powerUnfiltered.display_update_time = 15 ∧
        powerUnfiltered.name = "Unfiltered Power (W)") ∧
    (∀ l : List PowerPipeline2D, l ≠ [] →
      ∃ cam, load_kl11_camera (some c) (some l) stride = Except.ok cam ∧
        cam.pipelines = l) := by
  refine ⟨rfl, rfl, ?_, ?_⟩
  · intro pipelines hf
    refine ⟨_, rfl, ?_, rfl, rfl, rfl⟩
    show (if pipelinesFalsy pipelines then [powerUnfiltered]
      else pipelines.getD []) = [powerUnfiltered]
    rw [if_pos hf]
  · intro l hl
    refine ⟨_, rfl, ?_⟩
    show (if pipelinesFalsy (some l) then [powerUnfiltered]
      else (some l).getD []) = l
    have hne : ¬ (pipelinesFalsy (some l) = true) := by
      simp [pipelinesFalsy, List.isEmpty_iff, hl]
    rw [if_neg hne]
    rfl

/-- Witness for C8 on a concrete calibration, with a falsy empty list and
a non-empty supplied list. -/
theorem kl11_camera_default_pipeline_witness :
    pipelinesFalsy (some []) = true ∧
    (PowerPipeline2D.mk 1 "custom" 2 :: []) ≠ [] ∧
    (∃ cam, load_kl11_camera
        (some (CameraCalibration.mk (1, 1) [[(0 : ℚ)]] [[(0 : ℚ)]]))
        (some []) 1 = Except.ok cam ∧
      cam.pipelines = [powerUnfiltered] ∧
      powerUnfiltered.display_unsaturated_fraction = 96 / 100 ∧
      powerUnfiltered.display_update_time = 15 ∧
      powerUnfiltered.name = "Unfiltered Power (W)") ∧
    ∃ cam, load_kl11_camera
        (some (CameraCalibration.mk (1, 1) [[(0 : ℚ)]] [[(0 : ℚ)]]))
        (some [PowerPipeline2D.mk 1 "custom" 2]) 1 = Except.ok cam ∧
      cam.pipelines = [PowerPipeline2D.mk 1 "custom" 2] := by
  refine ⟨rfl, by simp, ?_, ?_⟩
  · exact (kl11_camera_default_pipeline
      (CameraCalibration.mk (1, 1) [[(0 : ℚ)]] [[(0 : ℚ)]]) 1).2.2.1
      (some []) rfl
  · exact (kl11_camera_default_pipeline
      (CameraCalibration.mk (1, 1) [[(0 : ℚ)]] [[(0 : ℚ)]]) 1).2.2.2
      [PowerPipeline2D.mk 1 "custom" 2] (by simp)

/-! ## Lemmas about boolean indexing -/

/-- Indexing a list by the boolean array obtained from its own elementwise
test is exactly filtering by that test. -/
theorem boolIndex_map_filter {α : Type} (p : α → Bool) (xs : List α) :
    boolIndex xs (xs.map p) = xs.filter p := by
  induction xs with
  | nil => rfl
  | cons x t ih =>
    simp only [List.map_cons, boolIndex, List.filter_cons]
    cases hp : p x <;> simp [ih]

/-- Indexing a second, equal-length list by the boolean array of the first
list's test keeps exactly the second list's entries at positions where the
first list passes the test, in order. -/
theorem boolIndex_zip_filter {α β : Type} (p : α → Bool) (xs : List α)
    (ys : List β) (h : ys.length = xs.length) :
    boolIndex ys (xs.map p) =
      ((xs.zip ys).filter (fun q => p q.1)).map Prod.snd := by
  induction xs generalizing ys with
  | nil =>
    cases ys with
    | nil => rfl
    | cons y t => simp at h
  | cons x t ih =>
    cases ys with
    | nil => simp at h
    | cons y ts =>
      have h' : ts.length = t.length := by simpa using h
      simp only [List.map_cons, boolIndex, List.zip_cons_cons,
        List.filter_cons]
      cases hp : p x <;> simp [ih ts h']

/-! ## Claim C3 -/

/-- **C3.** The mask `psi_coord <= 1.0` excludes exactly the samples with
normalized flux greater than 1: after filtering, every retained
`psi_coord` value is `≤ 1`, every value `> 1` is gone, and the same mask
is applied elementwise to each of the four profile signals (VT, TI, NE,
C6) before interpolation. -/
theorem camera76666_mask_spec (sig : ProfileSignals) :
    (maskedProfiles sig).1 = sig.psi_coord.filter (fun v => decide (v ≤ 1)) ∧
    (∀ v ∈ (maskedProfiles sig).1, v ≤ 1) ∧
    (∀ v : ℚ, 1 < v → v ∉ (maskedProfiles sig).1) ∧
    (sig.vt.length = sig.psi_coord.length →
      (maskedProfiles sig).2.1 = ((sig.psi_coord.zip sig.vt).filter
        (fun q => decide (q.1 ≤ 1))).map Prod.snd) ∧
    (sig.ti.length = sig.psi_coord.length →
      (maskedProfiles sig).2.2.1 = ((sig.psi_coord.zip sig.ti).filter
        (fun q => decide (q.1 ≤ 1))).map Prod.snd) ∧
    (sig.ne.length = sig.psi_coord.length →
      (maskedProfiles sig).2.2.2.1 = ((sig.psi_coord.zip sig.ne).filter
        (fun q => decide (q.1 ≤ 1))).map Prod.snd) ∧
    (sig.c6.length = sig.psi_coord.length →
      (maskedProfiles sig).2.2.2.2 = ((sig.psi_coord.zip sig.c6).filter
        (fun q => decide (q.1 ≤ 1))).map Prod.snd) := by
  have hpsi : (maskedProfiles sig).1 =
      sig.psi_coord.filter (fun v => decide (v ≤ 1)) :=
    boolIndex_map_filter (fun v => decide (v ≤ 1)) sig.psi_coord
  refine ⟨hpsi, ?_, ?_, ?_, ?_, ?_, ?_⟩
  · intro v hv
    rw [hpsi] at hv
    exact of_decide_eq_true (List.mem_filter.mp hv).2
  · intro v hv hmem
    rw [hpsi] at hmem
    have := of_decide_eq_true (List.mem_filter.mp hmem).2
    exact absurd hv (not_lt.mpr this)
  · exact fun h => boolIndex_zip_filter _ sig.psi_coord sig.vt h
  · exact fun h => boolIndex_zip_filter _ sig.psi_coord sig.ti h
  · exact fun h => boolIndex_zip_filter _ sig.psi_coord sig.ne h
  · exact fun h => boolIndex_zip_filter _ sig.psi_coord sig.c6 h

/-- Witness for C3 on concrete signals: psi axis `[1/2, 2, 1]` with one
out-of-range sample. -/
theorem camera76666_mask_spec_witness :
    ((ProfileSignals.mk [(1 : ℚ)/2, 2, 1] [10, 20, 30] [1, 2, 3] [4, 5, 6]
        [7, 8, 9]).vt.length =
      (ProfileSignals.mk [(1 : ℚ)/2, 2, 1] [10, 20, 30] [1, 2, 3] [4, 5, 6]
        [7, 8, 9]).psi_coord.length) ∧
    (maskedProfiles (ProfileSignals.mk [(1 : ℚ)/2, 2, 1] [10, 20, 30]
        [1, 2, 3] [4, 5, 6] [7, 8, 9])).1 =
      [(1 : ℚ)/2, 2, 1].filter (fun v => decide (v ≤ 1)) ∧
    (maskedProfiles (ProfileSignals.mk [(1 : ℚ)/2, 2, 1] [10, 20, 30]
        [1, 2, 3] [4, 5, 6] [7, 8, 9])).2.1 =
      (([(1 : ℚ)/2, 2, 1].zip [(10 : ℚ), 20, 30]).filter
        (fun q => decide (q.1 ≤ 1))).map Prod.snd := by
  refine ⟨by decide, ?_, ?_⟩
  · exact (camera76666_mask_spec _).1
  · exact (camera76666_mask_spec _).2.2.2.1 (by decide)

/-! ## Claim C9 -/

/-- **C9.** Quasi-neutrality in the demo script: the deuterium density is
defined pointwise as `density_d(x,y,z) = ne(x,y,z) - 6 * nc6(x,y,z)`, so
at every point the electron density equals `1` times the deuterium density
plus `6` times the C6 impurity density (charge balance with charges 1 and
6). -/
theorem camera76666_quasineutrality
    (electron_density density_c6 : ℝ → ℝ → ℝ → ℝ) (x y z : ℝ) :
    density_d electron_density density_c6 x y z =
      electron_density x y z - 6 * density_c6 x y z ∧
    electron_density x y z =
      1 * density_d electron_density density_c6 x y z +
        6 * density_c6 x y z := by
  refine ⟨rfl, ?_⟩
  rw [density_d]
  ring

/-! ## Claim C10 -/

/-- **C10.** The flow velocity `(y*v, -x*v, 0) / sqrt(x² + y²)` is purely
toroidal wherever `x² + y² > 0`: its z-component is zero, it is orthogonal
to the cylindrical radial direction `(x, y, 0)`, and its magnitude is
`|v|`, where `v` is the scalar toroidal flow at the point. -/
theorem camera76666_toroidal_flow (flow_velocity_tor : ℝ → ℝ → ℝ → ℝ)
    (x y z : ℝ) (h : 0 < x * x + y * y) :
    (flow_velocity Real.sqrt flow_velocity_tor x y z).z = 0 ∧
    Vector3D.dot (flow_velocity Real.sqrt flow_velocity_tor x y z)
      (Vector3D.mk x y 0) = 0 ∧
    Vector3D.magWith Real.sqrt
      (flow_velocity Real.sqrt flow_velocity_tor x y z) =
      |flow_velocity_tor x y z| := by
  set v := flow_velocity_tor x y z with hv
  have hspos : 0 < Real.sqrt (x * x + y * y) := Real.sqrt_pos.mpr h
  have hsne : Real.sqrt (x * x + y * y) ≠ 0 := ne_of_gt hspos
  have hsq : Real.sqrt (x * x + y * y) ^ 2 = x * x + y * y := by
    rw [sq]
    exact Real.mul_self_sqrt h.le
  refine ⟨?_, ?_, ?_⟩
  · show (0 : ℝ) / Real.sqrt (x * x + y * y) = 0
    exact zero_div _
  · show y * v / Real.sqrt (x * x + y * y) * x +
      -(x * v) / Real.sqrt (x * x + y * y) * y +
      0 / Real.sqrt (x * x + y * y) * 0 = 0
    field_simp
    ring
  · show Real.sqrt ((y * v / Real.sqrt (x * x + y * y)) ^ 2 +
      (-(x * v) / Real.sqrt (x * x + y * y)) ^ 2 +
      (0 / Real.sqrt (x * x + y * y)) ^ 2) = |v|
    have hinner : (y * v / Real.sqrt (x * x + y * y)) ^ 2 +
        (-(x * v) / Real.sqrt (x * x + y * y)) ^ 2 +
        (0 / Real.sqrt (x * x + y * y)) ^ 2 = v ^ 2 := by
      field_simp
      ring
    rw [hinner]
    exact Real.sqrt_sq_eq_abs v

/-- Witness for C10 at `(x, y, z) = (3, 4, 0)` with unit toroidal flow. -/
theorem camera76666_toroidal_flow_witness :
    (0 : ℝ) < 3 * 3 + 4 * 4 ∧
    ((flow_velocity Real.sqrt (fun _ _ _ => (1 : ℝ)) 3 4 0).z = 0 ∧
      Vector3D.dot (flow_velocity Real.sqrt (fun _ _ _ => (1 : ℝ)) 3 4 0)
        (Vector3D.mk 3 4 0) = 0 ∧
      Vector3D.magWith Real.sqrt
        (flow_velocity Real.sqrt (fun _ _ _ => (1 : ℝ)) 3 4 0) =
        |(1 : ℝ)|) := by
  refine ⟨by norm_num, ?_⟩
  exact camera76666_toroidal_flow (fun _ _ _ => (1 : ℝ)) 3 4 0 (by norm_num)

end CherabJet

